import Mathlib

/-!
# Verification of the exomol2lida core against its specification

Shallow embedding of the exomol2lida sources:
  * `exomol2lida/exomol/utils.py` (line parser for .def files),
  * `exomol2lida/read_inputs.py` (MoleculeInput constructor),
  * `exomol2lida/exomol/process_dataset.py` (DatasetProcessor: validation and
    the chunked state-lumping aggregation `process_states`).

Numeric columns are modelled over `ℚ`; a pandas NaN cell is modelled as
`Option.none`.  Fallible constructors are modelled with `Except`; the
in-place mutation of the caller's line list in `parse_exomol_line` is made
explicit by returning the new list.
-/

/- The core rational operations are irreducible by default, which blocks
`decide`-style evaluation of the embedded aggregation on concrete states
tables; re-enable unfolding for them. -/
attribute [local semireducible] Rat.mul Rat.add Rat.sub Rat.inv

/-! ## Embedding of `exomol2lida/exomol/utils.py : parse_exomol_line`

The python function pops lines from the front of the caller's list (skipping
blank lines), splits the top line on the separator string hash-space into
`value` and `comment`, optionally converts the value to a declared type, and
raises
  * `ExomolLineValueError` with message starting `Run out of lines` when the
    list is exhausted (no line number in the message),
  * `ExomolLineCommentError` with the line number when the split does not
    yield exactly two parts,
  * `ExomolLineValueError` with the line number when the type conversion
    fails.
Comment mismatches only emit warnings (never exceptions), so the
`expected_comment` / `raise_warnings` parameters do not influence the
result value or the list mutation and are omitted from the model.
-/

/-- Result values of `parse_exomol_line`: a string, or the value converted by
the `val_type` argument (`int` or `float`). -/
inductive PyVal where
  | str (s : String)
  | int (n : ℤ)
  | float (q : ℚ)
deriving DecidableEq

/-- The `val_type` argument of `parse_exomol_line` (`None`, `int` or `float`). -/
inductive ValType where
  | int
  | float
deriving DecidableEq

/-- The exceptions raised by `parse_exomol_line`, with exactly the data that the
source interpolates into each exception message: the exhaustion error carries
only the optional file name, the other two carry the 1-based line number and
the optional file name.  `runOutOfLines` and `valueType` are both
`ExomolLineValueError` in the source; `lineFormat` is `ExomolLineCommentError`. -/
inductive LineErr where
  | runOutOfLines (fileName : Option String)
  | lineFormat (lineNum : ℕ) (fileName : Option String)
  | valueType (lineNum : ℕ) (fileName : Option String)
deriving DecidableEq

/-- Line number carried in the exception message, if any. -/
def lineNumOf : LineErr → Option ℕ
  | .runOutOfLines _ => none
  | .lineFormat n _ => some n
  | .valueType n _ => some n

/-- File label carried in the exception message, if any. -/
def fileLabelOf : LineErr → Option String
  | .runOutOfLines f => f
  | .lineFormat _ f => f
  | .valueType _ f => f

/-- The whitespace characters stripped by python's str.strip (the model keeps
the four common ones). -/
def isSpaceChar (c : Char) : Bool := c = ' ' || c = '\t' || c = '\n' || c = '\r'

/-- Model of python str.strip: drop whitespace from both ends. -/
def strTrim (s : String) : String :=
  String.mk (((s.data.dropWhile isSpaceChar).reverse.dropWhile isSpaceChar).reverse)

/-- A line is skipped by the pop loop when it strips to the empty string. -/
def isBlank (s : String) : Bool := strTrim s = ""

/-- Model of python str.split with the two-character separator hash-space:
split at the left-to-right non-overlapping occurrences of the separator. -/
def splitHashSpaceChars : List Char → List (List Char)
  | [] => [[]]
  | '#' :: ' ' :: rest => [] :: splitHashSpaceChars rest
  | c :: rest =>
      match splitHashSpaceChars rest with
      | [] => [[c]]
      | p :: ps => (c :: p) :: ps

/-- The separator split of `parse_exomol_line`, on strings. -/
def splitHashSpace (s : String) : List String :=
  (splitHashSpaceChars s.data).map String.mk

/-- Value of a pure digit string (helper for the python `int`/`float` builtins). -/
def digitsNat (l : List Char) : ℕ :=
  l.foldl (fun a ch => 10 * a + (ch.toNat - 48)) 0

/-- Model of the python builtin `int` applied to an already stripped string:
an optional sign followed by a nonempty digit run. -/
def pyInt (s : String) : Option ℤ :=
  match s.data with
  | '+' :: rest =>
      if rest ≠ [] ∧ rest.all Char.isDigit then some (digitsNat rest : ℤ) else none
  | '-' :: rest =>
      if rest ≠ [] ∧ rest.all Char.isDigit then some (-(digitsNat rest : ℤ)) else none
  | l => if l ≠ [] ∧ l.all Char.isDigit then some (digitsNat l : ℤ) else none

/-- Model of the python builtin `float` on an unsigned body: digits with an
optional decimal point (scientific notation and inf/nan spellings are not
needed by any claim and are left out of the model). -/
def pyFloatCore (l : List Char) : Option ℚ :=
  match l.splitOn '.' with
  | [a] => if a ≠ [] ∧ a.all Char.isDigit then some (digitsNat a : ℚ) else none
  | [a, b] =>
      if (a.all Char.isDigit ∧ b.all Char.isDigit) ∧ ¬(a = [] ∧ b = []) then
        some ((digitsNat a : ℚ) + (digitsNat b : ℚ) / ((10 : ℚ) ^ b.length))
      else none
  | _ => none

/-- Model of the python builtin `float` applied to an already stripped string. -/
def pyFloat (s : String) : Option ℚ :=
  match s.data with
  | '+' :: rest => pyFloatCore rest
  | '-' :: rest => (pyFloatCore rest).map Neg.neg
  | l => pyFloatCore l

/-- The per-line body of `parse_exomol_line`: the consumed line is stripped,
split on the two-character separator hash-space (requiring exactly two
parts), and the value part is stripped and converted when a `val_type` is
given. -/
def parse_exomol_line_value (l : String) (lineNum : ℕ) (fileName : Option String)
    (valType : Option ValType) : Except LineErr PyVal :=
  match splitHashSpace (strTrim l) with
  | [v, _c] =>
      (match valType with
       | none => .ok (.str (strTrim v))
       | some .int =>
           match pyInt (strTrim v) with
           | some n => .ok (.int n)
           | none => .error (.valueType lineNum fileName)
       | some .float =>
           match pyFloat (strTrim v) with
           | some q => .ok (.float q)
           | none => .error (.valueType lineNum fileName))
  | _ => .error (.lineFormat lineNum fileName)

/-- The pop loop of `parse_exomol_line` together with the in-place list
mutation: the leading blank lines and the consumed top line are removed, the
consumed line is handed to `parse_exomol_line_value` with the 1-based line
number `n_orig - len(lines)` computed after the pop. -/
def parse_exomol_line (lines : List String) (nOrig : ℕ) (fileName : Option String)
    (valType : Option ValType) : Except LineErr PyVal × List String :=
  match lines.dropWhile isBlank with
  | [] => (.error (.runOutOfLines fileName), [])
  | l :: rem => (parse_exomol_line_value l (nOrig - rem.length) fileName valType, rem)

/-! ## Embedding of `exomol2lida/read_inputs.py : MoleculeInput.__init__`

The constructor validates the configuration record, resolves the dataset
directory layout under the data root, derives the states header from the
parsed .def data when no explicit header is supplied, and performs the
resolve/only-with validations, raising `MoleculeInputError` on the first
failed check.  File-system interaction (directory and file existence tests,
globbing, column counting, definition-file parsing) is abstracted into an
environment of pure functions; the run returns the list of file-system
accesses it performed (in order) next to the result, so that claims about
"before any file I/O" are statable. -/

/-- The data the constructor reads off the parsed .def file object
(`DefParser` of the external exomole library): the two availability flags and
the quantum-number labels in declared order. -/
structure DefRes where
  lifetime_availability : Bool
  lande_factor_availability : Bool
  quanta_labels : List String
deriving DecidableEq

/-- The pure file-system/environment interface consumed by the constructor.
`defParse p` is the outcome of constructing a `DefParser` on path `p` and
calling `parse` (`none` models a raised `DefParseError`). -/
structure Env where
  dataDir : String
  isDir : String → Bool
  isFile : String → Bool
  glob : String → List String
  defParse : String → Option DefRes
  numColumns : String → ℕ

/-- A molecule entry of the input configuration (*molecules.json*), with the
constructor's stub defaults for the optional fields: `none` models an absent
or null value, `energy_max = none` models the `float("inf")` default. -/
structure MolConfig where
  mol_slug : Option String
  iso_slug : Option String
  dataset_name : Option String
  states_header : Option (List String)
  resolve_el : List String
  resolve_vib : List String
  energy_max : Option ℚ
  only_with : List (String × ℚ)
deriving DecidableEq

/-- The distinct fatal errors raised by `MoleculeInput.__init__` and
`DatasetProcessor.__init__` (all `MoleculeInputError` in the source except
`defParseError`, which models the external `DefParseError`). -/
inductive MolErr where
  | missingMandatory
  | missingResolve
  | dirNotFound (p : String)
  | fileNotFound (p : String)
  | noTransFiles (p : String)
  | defParseError (p : String)
  | badStatesHeader
  | commonResolveValues
  | unsupportedResolve
  | onlyWithUnrecognised
  | statesNumColumnsMismatch
  | transNumColumnsBad
  | unrecognisedProc (which : String)
  | procMissingResolve
deriving DecidableEq

/-- Python truthiness of the three mandatory string attributes
(`None` and the empty string are falsy). -/
def truthy : Option String → Bool
  | none => false
  | some s => !(s = "")

/-- The first four/six fixed states columns
(`["i", "E", "g_tot", "J", "tau", "g_J"]`). -/
def fixedCols : List String := ["i", "E", "g_tot", "J", "tau", "g_J"]

/-- `quanta_available`: every header column which is not one of the six fixed
column names. -/
def quantaAvailable (header : List String) : List String :=
  header.filter (fun c => !(decide (c ∈ fixedCols)))

/-- The `only_with` validation of `MoleculeInput.__init__`: the keys must be a
subset of `quanta_available` together with the extra key `J`. -/
def onlyWithCheckMol (header : List String) (ow : List (String × ℚ)) : Bool :=
  (ow.map Prod.fst).all (fun k => decide (k ∈ quantaAvailable header) || decide (k = "J"))

/-- The `only_with` (and resolve) validation of `DatasetProcessor.__init__`:
the keys must be a subset of `states_header[4:]`. -/
def onlyWithCheckProc (header : List String) (ow : List (String × ℚ)) : Bool :=
  (ow.map Prod.fst).all (fun k => decide (k ∈ header.drop 4))

/-- The states header derived from the parsed .def data: the four mandatory
columns, then `tau` when lifetimes are available, then `g_J` when Landé
factors are available, then the quantum-number labels in declared order. -/
def deriveStatesHeader (d : DefRes) : List String :=
  (["i", "E", "g_tot", "J"]
    ++ (if d.lifetime_availability then ["tau"] else [])
    ++ (if d.lande_factor_availability then ["g_J"] else []))
    ++ d.quanta_labels

/-- The validated result of `MoleculeInput.__init__` (the attributes consumed
downstream by `DatasetProcessor`). -/
structure MolOut where
  formula : String
  states_path : String
  trans_paths : List String
  states_header : List String
  resolve_el : List String
  resolve_vib : List String
  only_with : List (String × ℚ)
  energy_max : Option ℚ
deriving DecidableEq

/-- The molecule directory `EXOMOL_DATA_DIR / mol_slug`. -/
def molRootOf (cfg : MolConfig) (env : Env) : String :=
  env.dataDir ++ "/" ++ cfg.mol_slug.getD ""

/-- The isotopologue directory. -/
def isoRootOf (cfg : MolConfig) (env : Env) : String :=
  molRootOf cfg env ++ "/" ++ cfg.iso_slug.getD ""

/-- The dataset directory. -/
def dsRootOf (cfg : MolConfig) (env : Env) : String :=
  isoRootOf cfg env ++ "/" ++ cfg.dataset_name.getD ""

/-- The file-name stem `iso_slug__dataset_name`. -/
def stemOf (cfg : MolConfig) : String :=
  cfg.iso_slug.getD "" ++ "__" ++ cfg.dataset_name.getD ""

/-- `self.def_path`. -/
def defPathOf (cfg : MolConfig) (env : Env) : String :=
  dsRootOf cfg env ++ "/" ++ stemOf cfg ++ ".def"

/-- `self.states_path`. -/
def statesPathOf (cfg : MolConfig) (env : Env) : String :=
  dsRootOf cfg env ++ "/" ++ stemOf cfg ++ ".states.bz2"

/-- The .trans glob pattern. -/
def transWcOf (cfg : MolConfig) (env : Env) : String :=
  dsRootOf cfg env ++ "/" ++ stemOf cfg ++ "*.trans.bz2"

/-- The file-system accesses performed up to (and including) the glob. -/
def acc0Of (cfg : MolConfig) (env : Env) : List String :=
  [molRootOf cfg env, isoRootOf cfg env, dsRootOf cfg env,
    defPathOf cfg env, statesPathOf cfg env, transWcOf cfg env]

/-- The part of `MoleculeInput.__init__` after the states header has been
determined (source lines 170-213): the resolve-set disjointness check, the
fixed-column and availability checks on the resolved quanta, the `only_with`
key check, and the two column-count checks against the actual files.
`acc` is the list of file-system accesses performed so far. -/
def moleculeInputFinish (formula : String) (cfg : MolConfig) (env : Env)
    (acc : List String) (statesPath : String) (transPaths : List String)
    (header : List String) : List String × Except MolErr MolOut :=
  if cfg.resolve_el.any (fun q => decide (q ∈ cfg.resolve_vib)) then
    (acc, .error .commonResolveValues)
  else if (cfg.resolve_el ++ cfg.resolve_vib).any (fun q => decide (q ∈ fixedCols)) then
    (acc, .error .unsupportedResolve)
  else if !((cfg.resolve_el ++ cfg.resolve_vib).all
      (fun q => decide (q ∈ quantaAvailable header))) then
    (acc, .error .unsupportedResolve)
  else if !(onlyWithCheckMol header cfg.only_with) then
    (acc, .error .onlyWithUnrecognised)
  else if !(env.numColumns statesPath = header.length) then
    (acc ++ [statesPath], .error .statesNumColumnsMismatch)
  else
    if !(env.numColumns (transPaths.headD "") = 3
        || env.numColumns (transPaths.headD "") = 4) then
      (acc ++ [statesPath, transPaths.headD ""], .error .transNumColumnsBad)
    else
      (acc ++ [statesPath, transPaths.headD ""],
        .ok { formula := formula, states_path := statesPath,
              trans_paths := transPaths, states_header := header,
              resolve_el := cfg.resolve_el, resolve_vib := cfg.resolve_vib,
              only_with := cfg.only_with, energy_max := cfg.energy_max })

/-- Embedding of `MoleculeInput.__init__` in source order: mandatory-attribute
truthiness, at least one resolve list, the three directory checks, the .def
and .states file checks, the .trans glob, then the states header (derived by
def-parsing when not supplied — note the source hands `self.states_path`,
not `self.def_path`, to `DefParser`), and finally `moleculeInputFinish`.
Returns the ordered list of file-system accesses next to the result. -/
def moleculeInputRun (formula : String) (cfg : MolConfig) (env : Env) :
    List String × Except MolErr MolOut :=
  if !(truthy cfg.mol_slug && truthy cfg.iso_slug && truthy cfg.dataset_name) then
    ([], .error .missingMandatory)
  else if cfg.resolve_el.isEmpty && cfg.resolve_vib.isEmpty then
    ([], .error .missingResolve)
  else if !(env.isDir (molRootOf cfg env)) then
    ([molRootOf cfg env], .error (.dirNotFound (molRootOf cfg env)))
  else if !(env.isDir (isoRootOf cfg env)) then
    ([molRootOf cfg env, isoRootOf cfg env],
      .error (.dirNotFound (isoRootOf cfg env)))
  else if !(env.isDir (dsRootOf cfg env)) then
    ([molRootOf cfg env, isoRootOf cfg env, dsRootOf cfg env],
      .error (.dirNotFound (dsRootOf cfg env)))
  else if !(env.isFile (defPathOf cfg env)) then
    ([molRootOf cfg env, isoRootOf cfg env, dsRootOf cfg env, defPathOf cfg env],
      .error (.fileNotFound (defPathOf cfg env)))
  else if !(env.isFile (statesPathOf cfg env)) then
    ([molRootOf cfg env, isoRootOf cfg env, dsRootOf cfg env, defPathOf cfg env,
        statesPathOf cfg env],
      .error (.fileNotFound (statesPathOf cfg env)))
  else if (env.glob (transWcOf cfg env)).isEmpty then
    (acc0Of cfg env, .error (.noTransFiles (transWcOf cfg env)))
  else
    match cfg.states_header with
    | none =>
        -- source bug kept faithfully: DefParser(self.states_path)
        match env.defParse (statesPathOf cfg env) with
        | none =>
            (acc0Of cfg env ++ [statesPathOf cfg env],
              .error (.defParseError (statesPathOf cfg env)))
        | some d =>
            moleculeInputFinish formula cfg env
              (acc0Of cfg env ++ [statesPathOf cfg env])
              (statesPathOf cfg env) (env.glob (transWcOf cfg env))
              (deriveStatesHeader d)
    | some hd =>
        if !(hd.take 4 = ["i", "E", "g_tot", "J"]) then
          (acc0Of cfg env, .error .badStatesHeader)
        else
          moleculeInputFinish formula cfg env (acc0Of cfg env)
            (statesPathOf cfg env) (env.glob (transWcOf cfg env)) hd

/-! ## Embedding of `exomol2lida/exomol/process_dataset.py : DatasetProcessor`

States-table rows carry the original state index `i` (the dataframe index),
the three named numeric columns `E`, `g_tot`, `J`, and the remaining columns
(`states_header[4:]`: the optional `tau`/`g_J` and the quantum numbers) as a
positional list aligned with the processor's column-name list.  All cell
values are modelled in `ℚ`; a pandas NaN cell of the running lumped-states
table is `Option.none`. -/

/-- The validated state of a constructed `DatasetProcessor` that the
aggregation consumes: the column names after the four fixed ones, the
resolved quanta (`resolve_el + resolve_vib` in that order), the `only_with`
filter and the optional energy ceiling. -/
structure ProcCfg where
  extraCols : List String
  resolvedQuanta : List String
  onlyWith : List (String × ℚ)
  energyMax : Option ℚ
deriving DecidableEq

/-- Embedding of `DatasetProcessor.__init__` on a validated `MoleculeInput`:
at least one resolve list must be populated, and each of `resolve_el`,
`resolve_vib`, `only_with` must only use columns among `states_header[4:]`
(note: unlike the `MoleculeInput` validation, this excludes the column `J`).
The two state-map dictionaries start empty. -/
def datasetProcessorInit (inp : MolOut) : Except MolErr ProcCfg :=
  if inp.resolve_el.isEmpty && inp.resolve_vib.isEmpty then
    .error .procMissingResolve
  else if !(inp.resolve_el.all (fun q => decide (q ∈ inp.states_header.drop 4))) then
    .error (.unrecognisedProc "resolve_el")
  else if !(inp.resolve_vib.all (fun q => decide (q ∈ inp.states_header.drop 4))) then
    .error (.unrecognisedProc "resolve_vib")
  else if !(onlyWithCheckProc inp.states_header inp.only_with) then
    .error (.unrecognisedProc "only_with")
  else
    .ok { extraCols := inp.states_header.drop 4,
          resolvedQuanta := inp.resolve_el ++ inp.resolve_vib,
          onlyWith := inp.only_with,
          energyMax := inp.energy_max }

/-- One row of the states table: original index `i` and the cell values. -/
structure StateRow where
  i : ℕ
  E : ℚ
  g_tot : ℚ
  J : ℚ
  extra : List ℚ
deriving DecidableEq

/-- Column access on a chunk row (`chunk[name]` for one row): the three named
columns, otherwise positional lookup among `states_header[4:]`. -/
def colVal (cfg : ProcCfg) (r : StateRow) (name : String) : Option ℚ :=
  if name = "E" then some r.E
  else if name = "g_tot" then some r.g_tot
  else if name = "J" then some r.J
  else
    match cfg.extraCols.findIdx? (fun c => decide (c = name)) with
    | some idx => r.extra.get? idx
    | none => none

/-- The per-chunk pre-filter mask of `process_states`: every `only_with`
column must equal its required value, and `E <= energy_max` when an energy
ceiling is configured. -/
def survives (cfg : ProcCfg) (r : StateRow) : Bool :=
  cfg.onlyWith.all (fun p => decide (colVal cfg r p.1 = some p.2)) &&
  (match cfg.energyMax with
   | none => true
   | some m => decide (r.E ≤ m))

/-- The lumped-group key of a row: the tuple of its values over the resolved
quanta (the `groupby(self.resolved_quanta)` key, also the key recorded by
`tuple(df.iloc[0].loc[self.resolved_quanta])`). -/
def groupKey (cfg : ProcCfg) (r : StateRow) : List (Option ℚ) :=
  cfg.resolvedQuanta.map (colVal cfg r)

/-- A row of the running `lumped_states` table: the minimum-energy `J` and the
two accumulator columns `sum_w`, `sum_en_x_w`. -/
structure GroupAgg where
  J : ℚ
  sum_w : ℚ
  sum_en_x_w : ℚ
deriving DecidableEq

/-- Embedding of `DatasetProcessor._process_state_group` (its returned series;
the membership-map side effect is handled by `updateL2O`): `min_en_j` is the
`J` of the first row attaining the minimum `E` of the group, and the sums of
`g_tot` and `E*g_tot` run over every row of the group whose `J` equals
`min_en_j`. -/
def localAgg : List StateRow → Option GroupAgg
  | [] => none
  | r :: rs =>
      let m := rs.foldl (fun acc x => min acc x.E) r.E
      let minJ :=
        match (r :: rs).find? (fun x => decide (x.E = m)) with
        | some x => x.J
        | none => r.J
      let sub := (r :: rs).filter (fun x => decide (x.J = minJ))
      some { J := minJ,
             sum_w := (sub.map (fun x => x.g_tot)).sum,
             sum_en_x_w := (sub.map (fun x => x.E * x.g_tot)).sum }

/-- The row of `lumped_states_chunk` (the groupby-apply result over one
filtered chunk) at group key `k`; `none` when the chunk has no row of that
group. -/
def groupLocal (cfg : ProcCfg) (rows : List StateRow) (k : List (Option ℚ)) :
    Option GroupAgg :=
  localAgg (rows.filter (fun r => decide (groupKey cfg r = k)))

/-- The running lumped-states table: `none` = group key absent from the table
index, `some none` = an all-NaN row, `some (some a)` = a filled row. -/
abbrev LumpState := List (Option ℚ) → Option (Option GroupAgg)

/-- The lumped-to-original membership map (`set()` of original indices). -/
abbrev L2O := List (Option ℚ) → Finset ℕ

/-- The reset mask of `process_states`:
`lumped_states_chunk.J.lt(lumped_states.J, fill_value='inf', ...)`.  A key
present in the chunk resets when its chunk-local `J` is strictly below the
running row's `J`, where a missing running row — and a NaN `J` of the running
row, because `fill_value` also fills existing NaN — counts as plus infinity.
Keys absent from the chunk never reset. -/
def resetKey (cfg : ProcCfg) (s : LumpState) (rows : List StateRow)
    (k : List (Option ℚ)) : Bool :=
  match groupLocal cfg rows k, s k with
  | some a, some (some running) => decide (a.J < running.J)
  | some _, _ => true
  | none, _ => false

/-- Embedding of the chunk-merge step of `process_states` (source lines
141-162) on the already filtered chunk rows: a fresh all-NaN frame is built
over the union of the previous index and the reset keys, the reset rows are
assigned the chunk-local `J` with zeroed sums, and the chunk sums are added
exactly where the fresh frame's `J` equals the chunk's `J` — which is the
reset rows only, since every other row of the fresh frame has a NaN `J`
(the previous accumulator values are never copied into the fresh frame). -/
def mergeChunk (cfg : ProcCfg) (s : LumpState) (rows : List StateRow) : LumpState :=
  fun k =>
    if resetKey cfg s rows k then some (groupLocal cfg rows k)
    else if (s k).isSome then some none
    else none

/-- The membership-map update performed inside
`DatasetProcessor._process_state_group` for every group of the filtered
chunk: the group's original indices are added to the group key's set. -/
def updateL2O (cfg : ProcCfg) (m : L2O) (rows : List StateRow) : L2O :=
  fun k =>
    m k ∪ ((rows.filter (fun r => decide (groupKey cfg r = k))).map
      (fun r => r.i)).toFinset

/-- The chunk loop of `process_states`.  A chunk with no surviving rows makes
the source crash (the empty groupby-apply result has no `J` column to
compare), which the model represents as `none`. -/
def processStatesAux (cfg : ProcCfg) :
    List (List StateRow) → LumpState × L2O → Option (LumpState × L2O)
  | [], acc => some acc
  | c :: cs, acc =>
      let rows := c.filter (survives cfg)
      if rows.isEmpty then none
      else
        processStatesAux cfg cs
          (mergeChunk cfg acc.1 rows, updateL2O cfg acc.2 rows)

/-- Floor of a rational, written on the numerator and denominator so that the
kernel can evaluate it. -/
def ratFloor (x : ℚ) : ℤ := Int.fdiv x.num (x.den : ℤ)

/-- Round-half-to-even (the python builtin `round` used on the final energy
column), on the model's exact rationals. -/
def roundHalfEven (x : ℚ) : ℤ :=
  let f := ratFloor x
  let r := x - (f : ℚ)
  if r < 1 / 2 then f
  else if 1 / 2 < r then f + 1
  else if f % 2 = 0 then f
  else f + 1

/-- `round(x, 5)` of the source's completion step. -/
def round5 (x : ℚ) : ℚ := ((roundHalfEven (x * 100000) : ℤ) : ℚ) / 100000

/-- The completion step of `process_states`: one `E` column per table row,
`round(sum_en_x_w / sum_w, 5)`; an all-NaN row stays NaN. -/
def finalizeTable (s : LumpState) : List (Option ℚ) → Option (Option ℚ) :=
  fun k => (s k).map (Option.map (fun a => round5 (a.sum_en_x_w / a.sum_w)))

/-- The outputs of a completed `process_states` call: the final lumped-states
table (`self.lumped_states`, keyed by group key), and the two state maps.
`states_map_original_to_lumped` is created in `__init__` and never written
afterwards, hence the constant-`none` field. -/
structure ProcOut where
  table : List (Option ℚ) → Option (Option ℚ)
  states_map_lumped_to_original : L2O
  states_map_original_to_lumped : ℕ → Option (List (Option ℚ))

/-- Embedding of `DatasetProcessor.process_states` over a chunked states
table (the list of chunks produced by the configured chunk size). -/
def process_states (cfg : ProcCfg) (chunks : List (List StateRow)) :
    Option ProcOut :=
  (processStatesAux cfg chunks (fun _ => none, fun _ => ∅)).map
    (fun acc =>
      { table := finalizeTable acc.1,
        states_map_lumped_to_original := acc.2,
        states_map_original_to_lumped := fun _ => none })

/-- Splitting a table into consecutive chunks of `n + 1` rows (the chunk size
is the positive `STATES_CHUNK_SIZE`; the extra fuel argument only drives the
structural recursion). -/
def chunksOfAux (n : ℕ) : ℕ → List StateRow → List (List StateRow)
  | _, [] => []
  | 0, l => [l]
  | fuel + 1, x :: xs => (x :: xs.take n) :: chunksOfAux n fuel (xs.drop n)

/-- The chunk stream of a states table read with chunk size `n + 1`. -/
def chunksOf (n : ℕ) (l : List StateRow) : List (List StateRow) :=
  chunksOfAux n l.length l

/-! ## Concrete tables, configurations and runs used by the claims

`cfgV` resolves the single quantum column `v` with no pre-filter; the rows
carry `(i, E, g_tot, J, extra)`.  `cfgW` additionally exercises the
`only_with` and `energy_max` filters. -/

/-- Resolve the single quantum column `v`, no filters. -/
def cfgV : ProcCfg := ⟨["v"], ["v"], [], none⟩

/-- The group key shared by all rows with `v = 0`. -/
def keyV : List (Option ℚ) := [some 0]

/-- Row `(E, J, g_tot) = (10, 0, 2)` of the specification's synthetic group. -/
def row1 : StateRow := ⟨1, 10, 2, 0, [0]⟩

/-- Row `(E, J, g_tot) = (10, 0, 3)` of the specification's synthetic group. -/
def row2 : StateRow := ⟨2, 10, 3, 0, [0]⟩

/-- Row `(E, J, g_tot) = (12, 1, 5)` of the specification's synthetic group. -/
def row3 : StateRow := ⟨3, 12, 5, 1, [0]⟩

/-- A row with the lowest energy at a high `J` value (`E = 10`, `J = 5`). -/
def rowA : StateRow := ⟨1, 10, 2, 5, [0]⟩

/-- A row with a higher energy at a lower `J` value (`E = 12`, `J = 3`). -/
def rowB : StateRow := ⟨2, 12, 4, 3, [0]⟩

/-- Resolve `v`, require `v = 1`, and cap the energy at 100. -/
def cfgW : ProcCfg := ⟨["v"], ["v"], [("v", 1)], some 100⟩

/-- The group key of the surviving rows below (`v = 1`). -/
def keyW : List (Option ℚ) := [some 1]

/-- A surviving row (`v = 1`, `E = 10`). -/
def w1 : StateRow := ⟨1, 10, 2, 0, [1]⟩

/-- A row failing the `only_with` filter (`v = 2`). -/
def w2 : StateRow := ⟨2, 10, 3, 0, [2]⟩

/-- A row failing the energy ceiling (`E = 200 > 100`). -/
def w3 : StateRow := ⟨3, 200, 5, 1, [1]⟩

/-- A second surviving row (`v = 1`, `E = 20`). -/
def w4 : StateRow := ⟨4, 20, 1, 2, [1]⟩

/-- A two-chunk stream mixing surviving and filtered rows. -/
def chunksW : List (List StateRow) := [[w1, w2], [w3, w4]]

/-- The completed processor outputs on `cfgW` / `chunksW`. -/
def c5out : ProcOut := (process_states cfgW chunksW).get (by rfl)

/-- A dataset layout for molecule slug `m`, isotopologue slug `i`, dataset
`d` under data root `data`: all three directories and both the .def and
.states files exist, one .trans file matches the glob, the .def file parses
(lifetime available, no Landé factor, one quantum `v`) while def-parsing any
other path — in particular the .states file — fails, the .states file has 5
columns and the .trans file has 3. -/
def envGood : Env :=
  { dataDir := "data",
    isDir := fun p => decide (p ∈ ["data/m", "data/m/i", "data/m/i/d"]),
    isFile := fun p =>
      decide (p ∈ ["data/m/i/d/i__d.def", "data/m/i/d/i__d.states.bz2"]),
    glob := fun p =>
      if p = "data/m/i/d/i__d*.trans.bz2" then ["data/m/i/d/i__d.trans.bz2"]
      else [],
    defParse := fun p =>
      if p = "data/m/i/d/i__d.def" then some ⟨true, false, ["v"]⟩ else none,
    numColumns := fun p =>
      if p = "data/m/i/d/i__d.states.bz2" then 5 else 3 }

/-- A configuration with no explicit `states_header` (the header must be
derived from the .def file). -/
def c6cfg : MolConfig :=
  { mol_slug := some "m", iso_slug := some "i", dataset_name := some "d",
    states_header := none, resolve_el := ["v"], resolve_vib := [],
    energy_max := none, only_with := [] }

/-- A configuration whose `resolve_el` and `resolve_vib` overlap. -/
def c7cfg : MolConfig :=
  { mol_slug := some "m", iso_slug := some "i", dataset_name := some "d",
    states_header := some ["i", "E", "g_tot", "J", "v"],
    resolve_el := ["v"], resolve_vib := ["v"],
    energy_max := none, only_with := [] }

/-- A configuration with both resolve lists empty. -/
def c7emptyCfg : MolConfig :=
  { mol_slug := some "m", iso_slug := some "i", dataset_name := some "d",
    states_header := none, resolve_el := [], resolve_vib := [],
    energy_max := none, only_with := [] }

/-- A valid configuration whose `only_with` filter is keyed by `J`. -/
def c8cfg : MolConfig :=
  { mol_slug := some "m", iso_slug := some "i", dataset_name := some "d",
    states_header := some ["i", "E", "g_tot", "J", "v"],
    resolve_el := ["v"], resolve_vib := [],
    energy_max := none, only_with := [("J", 0)] }

/-- The validated `MoleculeInput` produced from `c8cfg` over `envGood`. -/
def c8out : MolOut :=
  { formula := "X", states_path := "data/m/i/d/i__d.states.bz2",
    trans_paths := ["data/m/i/d/i__d.trans.bz2"],
    states_header := ["i", "E", "g_tot", "J", "v"],
    resolve_el := ["v"], resolve_vib := [],
    only_with := [("J", 0)], energy_max := none }

/-! ## Claims C1-C5: the state-lumping aggregation -/

/-- C1: chunk-size invariance FAILS on the code (the claim is the stated key
correctness property; the code comments show the accumulate/reset intent but
the rebuilt accumulator frame drops every non-reset row, and resets compare
`J` instead of `E`).  On the two-row table `rowA, rowB` (one group), reading
the whole table in one chunk yields lumped `E = 10.0`, while chunk size 1
yields `E = 12.0`: the second chunk's lower `J` (at a higher `E`) resets the
aggregate.  The membership map happens to agree between the two runs. -/
theorem c1_chunk_size_changes_result :
    (process_states cfgV (chunksOf 1 [rowA, rowB])).map (fun o => o.table keyV)
      = some (some (some 10))
    ∧ (process_states cfgV (chunksOf 0 [rowA, rowB])).map (fun o => o.table keyV)
      = some (some (some 12))
    ∧ (process_states cfgV (chunksOf 0 [rowA, rowB])).map
        (fun o => o.states_map_lumped_to_original keyV)
      = (process_states cfgV (chunksOf 1 [rowA, rowB])).map
        (fun o => o.states_map_lumped_to_original keyV) := by
  exact ⟨by decide, by decide, by decide⟩

/-- C2: the chunk-merge diverges from the claimed three-case rule.  Feeding
the synthetic group rows `(10,0,2), (10,0,3)` and then `(12,1,5)` in a second
chunk should (per the claim) discard the second chunk entirely and keep
`E = 10.0`; the code instead wipes the group's running row to NaN, because
the rebuilt frame never carries over non-reset rows.  Splitting the two
`J = 0` rows over two chunks should add the sums (`E = 10.0`); the code again
ends with NaN.  And a chunk with a strictly higher `E` but lower `J`
(`rowB` after `rowA`) resets the aggregate to the chunk values (`E = 12.0`):
the reset comparison is on `J`, not on `E`. -/
theorem c2_merge_wipes_and_resets_on_J :
    (process_states cfgV [[row1, row2], [row3]]).map (fun o => o.table keyV)
      = some (some none)
    ∧ (process_states cfgV [[row1], [row2]]).map (fun o => o.table keyV)
      = some (some none)
    ∧ (process_states cfgV [[rowA], [rowB]]).map (fun o => o.table keyV)
      = some (some (some 12)) := by
  exact ⟨by decide, by decide, by decide⟩

/-- C3: `states_map_original_to_lumped` is initialised in `__init__` but never
written during `process_states`, so it cannot be the inverse of
`states_map_lumped_to_original`: after processing the single row `row1`,
the lumped-to-original map holds index 1 under the group key, yet the
original-to-lumped map sends 1 to nothing. -/
theorem c3_original_to_lumped_never_built :
    (process_states cfgV [[row1]]).map
      (fun o => o.states_map_lumped_to_original keyV) = some {1}
    ∧ (process_states cfgV [[row1]]).map
      (fun o => o.states_map_original_to_lumped 1) = some none := by
  exact ⟨by decide, by decide⟩

/-- C4: on the synthetic group `(E,J,g_tot) = (10,0,2), (10,0,3), (12,1,5)`
processed as one chunk, the group aggregate selects `J = 0` (the `J` at
minimum energy), sums weights `2 + 3 = 5` and weighted energies
`10*2 + 10*3 = 50` — excluding the `J = 1` row entirely — and the final
lumped energy is `50 / 5 = 10.0`. -/
theorem c4_weighted_mean_example :
    localAgg [row1, row2, row3] = some ⟨0, 5, 50⟩
    ∧ (process_states cfgV [[row1, row2, row3]]).map (fun o => o.table keyV)
      = some (some (some 10)) := by
  exact ⟨by decide, by decide⟩

/-- Filtering each chunk and then concatenating equals concatenating and then
filtering. -/
theorem filter_map_flatten (p : StateRow → Bool) :
    ∀ cs : List (List StateRow),
      (cs.map (List.filter p)).flatten = cs.flatten.filter p
  | [] => rfl
  | c :: cs => by
      rw [List.map_cons, List.flatten_cons, List.flatten_cons, List.filter_append,
        filter_map_flatten p cs]

/-- Characterisation of the lumped-to-original membership map accumulated by
the chunk loop: each group key's set grows by exactly the indices of the
surviving rows of that group, over all chunks. -/
theorem processStatesAux_l2o (cfg : ProcCfg) :
    ∀ (cs : List (List StateRow)) (s : LumpState) (m : L2O)
      (s2 : LumpState) (m2 : L2O),
      processStatesAux cfg cs (s, m) = some (s2, m2) →
      ∀ k, m2 k = m k ∪
        (((cs.flatten.filter (survives cfg)).filter
            (fun r => decide (groupKey cfg r = k))).map (fun r => r.i)).toFinset
  | [], s, m, s2, m2, h, k => by
      simp only [processStatesAux, Option.some.injEq, Prod.mk.injEq] at h
      rw [← h.2]
      simp
  | c :: cs, s, m, s2, m2, h, k => by
      simp only [processStatesAux] at h
      split at h
      · exact absurd h (by simp)
      · have ih := processStatesAux_l2o cfg cs _ _ _ _ h k
        rw [ih]
        simp [updateL2O, List.flatten_cons, List.filter_append, Finset.union_assoc]

/-- Pre-filtering every chunk with the survival predicate does not change the
outcome of the chunk loop: rows failing the filters influence nothing. -/
theorem processStatesAux_prefiltered (cfg : ProcCfg) :
    ∀ (cs : List (List StateRow)) (acc : LumpState × L2O),
      processStatesAux cfg (cs.map (List.filter (survives cfg))) acc =
        processStatesAux cfg cs acc
  | [], _ => rfl
  | c :: cs, acc => by
      have hff : (c.filter (survives cfg)).filter (survives cfg)
          = c.filter (survives cfg) := by
        rw [List.filter_filter]
        exact List.filter_congr (fun a _ => Bool.and_self _)
      simp only [List.map_cons, processStatesAux, hff]
      split
      · rfl
      · exact processStatesAux_prefiltered cfg cs _

/-- C5: after a completed `process_states` run over chunks whose rows carry
pairwise distinct original indices, the value sets of
`states_map_lumped_to_original` partition exactly the surviving indices:
each group key's set is exactly the set of indices of surviving rows of that
group, every surviving row's index lies in its own group's set and in no
other, no filtered-out index appears in any set, and the entire outcome
(table and maps) is unchanged when every chunk is pre-restricted to its
surviving rows — filtered-out rows influence no membership set and no
weighted sum. -/
theorem c5_membership_partition (cfg : ProcCfg) (chunks : List (List StateRow))
    (out : ProcOut) (hrun : process_states cfg chunks = some out)
    (hnodup : (chunks.flatten.map (fun r => r.i)).Nodup) :
    (∀ k, out.states_map_lumped_to_original k =
      (((chunks.flatten.filter (survives cfg)).filter
          (fun r => decide (groupKey cfg r = k))).map (fun r => r.i)).toFinset)
    ∧ (∀ r, r ∈ chunks.flatten → survives cfg r = true →
        r.i ∈ out.states_map_lumped_to_original (groupKey cfg r)
        ∧ ∀ k, r.i ∈ out.states_map_lumped_to_original k → k = groupKey cfg r)
    ∧ (∀ r, r ∈ chunks.flatten → survives cfg r = false →
        ∀ k, r.i ∉ out.states_map_lumped_to_original k)
    ∧ process_states cfg (chunks.map (List.filter (survives cfg))) = some out := by
  unfold process_states at hrun
  obtain ⟨⟨s2, m2⟩, haux, hout⟩ := Option.map_eq_some'.mp hrun
  have hchar : ∀ k, m2 k =
      (((chunks.flatten.filter (survives cfg)).filter
        (fun r => decide (groupKey cfg r = k))).map (fun r => r.i)).toFinset := by
    intro k
    have hc := processStatesAux_l2o cfg chunks _ _ _ _ haux k
    simpa using hc
  have hm2 : out.states_map_lumped_to_original = m2 := by rw [← hout]
  have hinj := List.inj_on_of_nodup_map hnodup
  refine ⟨?_, ?_, ?_, ?_⟩
  · intro k
    rw [hm2, hchar k]
  · intro r hr hs
    constructor
    · rw [hm2, hchar]
      simp only [List.mem_toFinset, List.mem_map, List.mem_filter]
      exact ⟨r, ⟨⟨hr, hs⟩, by simp⟩, rfl⟩
    · intro k hk
      rw [hm2, hchar] at hk
      simp only [List.mem_toFinset, List.mem_map, List.mem_filter] at hk
      obtain ⟨x, ⟨⟨hx1, _⟩, hx3⟩, hx4⟩ := hk
      have hxr : x = r := hinj hx1 hr hx4
      have hgk : groupKey cfg x = k := of_decide_eq_true hx3
      rw [← hgk, hxr]
  · intro r hr hs k hk
    rw [hm2, hchar] at hk
    simp only [List.mem_toFinset, List.mem_map, List.mem_filter] at hk
    obtain ⟨x, ⟨⟨hx1, hx2⟩, _⟩, hx4⟩ := hk
    have hxr : x = r := hinj hx1 hr hx4
    rw [hxr] at hx2
    rw [hx2] at hs
    exact Bool.true_eq_false.mp hs
  · unfold process_states
    rw [processStatesAux_prefiltered cfg chunks, haux, Option.map_some', hout]

/-- The run on `cfgW` / `chunksW` completes, with `c5out` its outputs. -/
theorem c5run_eq : process_states cfgW chunksW = some c5out :=
  (Option.some_get (by rfl)).symm

/-- Witness for `c5_membership_partition`: on the concrete filtered run, the
surviving index 1 belongs to its group's membership set, the filtered-out
index 3 belongs to no set, and the distinct-index hypothesis holds. -/
theorem c5_membership_partition_witness :
    (chunksW.flatten.map (fun r => r.i)).Nodup
    ∧ 1 ∈ c5out.states_map_lumped_to_original keyW
    ∧ 3 ∉ c5out.states_map_lumped_to_original keyW :=
  ⟨by decide,
   (((c5_membership_partition cfgW chunksW c5out c5run_eq (by decide)).2.1
      w1 (by decide) (by decide)).1 : 1 ∈ _),
   (c5_membership_partition cfgW chunksW c5out c5run_eq (by decide)).2.2.1
      w3 (by decide) (by decide) keyW⟩

/-! ## Claims C6-C8: input validation -/

/-- C6: when no explicit `states_header` is supplied, the constructor invokes
the definition parser on `self.states_path` — the `.states.bz2` file — and
not on the dataset's `.def` header file (the module docstring and the
`def_path` computed just above say the `.def` file is parsed; handing
`DefParser` the states path is a slip).  Over a layout whose `.def` file
parses to lifetime-available, no Landé factor and quanta `[v]`, construction
of `c6cfg` fails with a `DefParseError` on the states path instead of
deriving the documented header `[i, E, g_tot, J, tau, v]` from the `.def`
file. -/
theorem c6_def_parser_invoked_on_states_path :
    (moleculeInputRun "X" c6cfg envGood).2 =
      .error (.defParseError "data/m/i/d/i__d.states.bz2")
    ∧ envGood.defParse "data/m/i/d/i__d.def" = some ⟨true, false, ["v"]⟩
    ∧ deriveStatesHeader ⟨true, false, ["v"]⟩ =
        ["i", "E", "g_tot", "J", "tau", "v"] := by
  exact ⟨by rfl, by rfl, by rfl⟩

/-- C7 (counterexample): a configuration with overlapping
`resolve_el`/`resolve_vib` is NOT rejected before file-system access: over a
fully existing layout, the constructor performs the three directory checks,
the two file checks and the glob before raising the common-values error. -/
theorem c7_overlap_rejected_only_after_fs_access :
    (moleculeInputRun "X" c7cfg envGood).2 = .error .commonResolveValues
    ∧ (moleculeInputRun "X" c7cfg envGood).1 =
        ["data/m", "data/m/i", "data/m/i/d", "data/m/i/d/i__d.def",
          "data/m/i/d/i__d.states.bz2", "data/m/i/d/i__d*.trans.bz2"]
    ∧ (moleculeInputRun "X" c7cfg envGood).1 ≠ [] := by
  exact ⟨by rfl, by rfl, by decide⟩

/-- Every branch of the post-header validation keeps the access list
nonempty. -/
theorem moleculeInputFinish_acc_ne_nil (formula : String) (cfg : MolConfig)
    (env : Env) (acc : List String) (sp : String) (tp : List String)
    (hd : List String) (hacc : acc ≠ []) :
    (moleculeInputFinish formula cfg env acc sp tp hd).1 ≠ [] := by
  unfold moleculeInputFinish
  repeat' split
  all_goals simp_all

/-- Whenever the constructor terminates with the overlapping-resolve error,
its access list is nonempty: the error is raised by the post-header
validation, which only runs after the directory, file and glob accesses. -/
theorem moleculeInputRun_common_after_fs (formula : String) (cfg : MolConfig)
    (env : Env) (acc : List String)
    (h : moleculeInputRun formula cfg env = (acc, .error .commonResolveValues)) :
    acc ≠ [] := by
  unfold moleculeInputRun at h
  repeat' split at h
  all_goals first
    | simp at h
    | { show ((acc, Except.error MolErr.commonResolveValues) :
          List String × Except MolErr MolOut).1 ≠ []
        rw [← h]
        exact moleculeInputFinish_acc_ne_nil _ _ _ _ _ _ _ (by simp [acc0Of]) }

/-- C7 (amended): a configuration with both resolve lists empty is rejected
with a `MoleculeInputError` before any file-system access (either the
missing-mandatory or the missing-resolve error, with an empty access list),
whereas the overlapping-resolve error, whenever it is raised, is raised only
after file-system accesses have happened (the access list is nonempty). -/
theorem c7_amended (formula : String) (cfg : MolConfig) (env : Env) :
    (cfg.resolve_el = [] → cfg.resolve_vib = [] →
      (moleculeInputRun formula cfg env).1 = []
      ∧ ((moleculeInputRun formula cfg env).2 = .error .missingMandatory
        ∨ (moleculeInputRun formula cfg env).2 = .error .missingResolve))
    ∧ ((moleculeInputRun formula cfg env).2 = .error .commonResolveValues →
        (moleculeInputRun formula cfg env).1 ≠ []) := by
  constructor
  · intro he hv
    unfold moleculeInputRun
    split
    · exact ⟨rfl, Or.inl rfl⟩
    · split
      · exact ⟨rfl, Or.inr rfl⟩
      · rename_i hcond
        rw [he, hv] at hcond
        simp at hcond
  · intro herr
    exact moleculeInputRun_common_after_fs formula cfg env _ (by rw [← herr])

/-- Witness for `c7_amended`: the empty-resolve configuration is rejected with
no file-system access, while the overlapping configuration is rejected only
after file-system accesses. -/
theorem c7_amended_witness :
    (moleculeInputRun "X" c7emptyCfg envGood).1 = []
    ∧ (moleculeInputRun "X" c7cfg envGood).1 ≠ [] :=
  ⟨((c7_amended "X" c7emptyCfg envGood).1 rfl rfl).1,
   (c7_amended "X" c7cfg envGood).2 (by rfl)⟩

/-- C8 (counterexample): the configuration `c8cfg`, whose `only_with` is keyed
by `J`, passes `MoleculeInput` construction (producing `c8out`, with the
`only_with` validation succeeding), but `DatasetProcessor` construction from
that very input raises `MoleculeInputError` for the same `only_with`. -/
theorem c8_only_with_J_passes_input_but_fails_processor :
    (moleculeInputRun "X" c8cfg envGood).2 = .ok c8out
    ∧ onlyWithCheckMol c8out.states_header c8out.only_with = true
    ∧ datasetProcessorInit c8out = .error (.unrecognisedProc "only_with") := by
  exact ⟨by rfl, by rfl, by rfl⟩

/-- Every non-fixed header column sits in `states_header[4:]` once the first
four columns are the mandatory ones. -/
theorem quantaAvailable_subset_drop4 (header : List String)
    (hhd : header.take 4 = ["i", "E", "g_tot", "J"]) :
    ∀ k, k ∈ quantaAvailable header → k ∈ header.drop 4 := by
  intro k hk
  simp only [quantaAvailable, List.mem_filter, Bool.not_eq_true'] at hk
  obtain ⟨hmem, hnot⟩ := hk
  rw [decide_eq_false_iff_not] at hnot
  have hsplit : header = header.take 4 ++ header.drop 4 :=
    (List.take_append_drop 4 header).symm
  rw [hsplit, List.mem_append, hhd] at hmem
  rcases hmem with hm | hm
  · exfalso
    apply hnot
    simp only [fixedCols]
    simp only [List.mem_cons, List.mem_singleton] at hm ⊢
    tauto
  · exact hm

/-- C8 (amended): an `only_with` mapping keyed only by quantum-number columns
passes the validation at both `MoleculeInput` and `DatasetProcessor`
construction; the key `J`, however, passes the `MoleculeInput` validation
but fails the `DatasetProcessor` validation (which allows only
`states_header[4:]`), so such an input raises `MoleculeInputError` at
`DatasetProcessor` construction; and any key outside the quantum columns and
`J` already fails the `MoleculeInput` validation. -/
theorem c8_amended (inp : MolOut)
    (hhd : inp.states_header.take 4 = ["i", "E", "g_tot", "J"]) :
    (((inp.only_with.map Prod.fst).all
        (fun k => decide (k ∈ quantaAvailable inp.states_header))) = true →
      onlyWithCheckMol inp.states_header inp.only_with = true
      ∧ onlyWithCheckProc inp.states_header inp.only_with = true)
    ∧ (∀ v : ℚ, ("J" : String) ∉ inp.states_header.drop 4 →
        onlyWithCheckMol inp.states_header [("J", v)] = true
        ∧ onlyWithCheckProc inp.states_header [("J", v)] = false)
    ∧ (∀ (k : String) (v : ℚ), k ∉ quantaAvailable inp.states_header →
        ¬(k = "J") →
        onlyWithCheckMol inp.states_header ((k, v) :: inp.only_with) = false)
    ∧ ((inp.resolve_el.isEmpty && inp.resolve_vib.isEmpty) = false →
        inp.resolve_el.all
          (fun q => decide (q ∈ inp.states_header.drop 4)) = true →
        inp.resolve_vib.all
          (fun q => decide (q ∈ inp.states_header.drop 4)) = true →
        onlyWithCheckProc inp.states_header inp.only_with = false →
        datasetProcessorInit inp = .error (.unrecognisedProc "only_with")) := by
  refine ⟨?_, ?_, ?_, ?_⟩
  · intro hq
    simp only [onlyWithCheckMol, onlyWithCheckProc, List.all_eq_true,
      decide_eq_true_eq] at hq ⊢
    constructor
    · intro k hk
      simp [hq k hk]
    · intro k hk
      exact quantaAvailable_subset_drop4 _ hhd k (hq k hk)
  · intro v hJ
    constructor
    · simp [onlyWithCheckMol]
    · simp [onlyWithCheckProc, hJ]
  · intro k v hk hkJ
    simp [onlyWithCheckMol, hk, hkJ]
  · intro h1 h2 h3 h4
    simp [datasetProcessorInit, h1, h2, h3, h4]

/-- Witness for `c8_amended`, at the concrete input `c8out`: the `J`-keyed
filter passes the `MoleculeInput` check, fails the `DatasetProcessor` check,
and `DatasetProcessor` construction raises for it. -/
theorem c8_amended_witness :
    onlyWithCheckMol c8out.states_header [("J", 0)] = true
    ∧ onlyWithCheckProc c8out.states_header [("J", 0)] = false
    ∧ datasetProcessorInit c8out = .error (.unrecognisedProc "only_with") :=
  ⟨((c8_amended c8out (by rfl)).2.1 0 (by decide)).1,
   ((c8_amended c8out (by rfl)).2.1 0 (by decide)).2,
   (c8_amended c8out (by rfl)).2.2.2 (by rfl) (by rfl) (by rfl) (by rfl)⟩
/-! ## Claims C9 and C10: behaviour of `parse_exomol_line` -/

/-- C9 (counterexample): exhaustion is a structural failure whose exception
message carries no line number at all, refuting the claim that every
structural failure carries the offending line number together with the file
label.  Concretely, parsing with an exhausted line list and file label
`foo` raises the run-out-of-lines error, and that error has no line number. -/
theorem c9_runout_has_no_line_number :
    (parse_exomol_line [] 4 (some "foo") none).1 =
      .error (.runOutOfLines (some "foo"))
    ∧ lineNumOf (.runOutOfLines (some "foo")) = none := by
  constructor <;> rfl

/-- C9 (amended): every structural failure of `parse_exomol_line` is a fatal
error carrying the file label; the missing-separator and wrong-value-type
failures additionally carry the offending 1-based line number, while the
exhaustion failure carries no line number and is raised (as a distinct error
kind from the malformed-line error) exactly when no non-blank line remains. -/
theorem c9_amended (lines : List String) (nOrig : ℕ) (fname : Option String)
    (vt : Option ValType) (e : LineErr)
    (h : (parse_exomol_line lines nOrig fname vt).1 = .error e) :
    fileLabelOf e = fname
    ∧ (e = .runOutOfLines fname ↔ lines.dropWhile isBlank = [])
    ∧ (e ≠ .runOutOfLines fname →
        lineNumOf e = some (nOrig - ((lines.dropWhile isBlank).length - 1))) := by
  unfold parse_exomol_line at h
  rcases hd : lines.dropWhile isBlank with _ | ⟨l, rem⟩ <;> rw [hd] at h <;>
    simp only at h
  · simp only [Except.error.injEq] at h
    subst h
    exact ⟨rfl, by simp, by simp [lineNumOf]⟩
  · unfold parse_exomol_line_value at h
    split at h
    · split at h
      · exact absurd h (by simp)
      · split at h
        · exact absurd h (by simp)
        · simp only [Except.error.injEq] at h
          subst h
          exact ⟨rfl, by simp, fun _ => by simp [lineNumOf]⟩
      · split at h
        · exact absurd h (by simp)
        · simp only [Except.error.injEq] at h
          subst h
          exact ⟨rfl, by simp, fun _ => by simp [lineNumOf]⟩
    · simp only [Except.error.injEq] at h
      subst h
      exact ⟨rfl, by simp, fun _ => by simp [lineNumOf]⟩

/-- Witness for `c9_amended`: a line with no separator raises the
malformed-line error, which carries the file label and line number 1. -/
theorem c9_amended_witness :
    (parse_exomol_line ["nofence"] 1 (some "f") none).1 =
      .error (.lineFormat 1 (some "f"))
    ∧ fileLabelOf (.lineFormat 1 (some "f")) = some "f"
    ∧ lineNumOf (.lineFormat 1 (some "f")) =
        some (1 - (((["nofence"] : List String).dropWhile isBlank).length - 1)) :=
  ⟨by rfl,
   (c9_amended ["nofence"] 1 (some "f") none (.lineFormat 1 (some "f"))
      (by rfl)).1,
   (c9_amended ["nofence"] 1 (some "f") none (.lineFormat 1 (some "f"))
      (by rfl)).2.2 (by decide)⟩ 

/-- C10: each call to `parse_exomol_line` leaves the caller's list equal to the
original list with the leading blank lines and the consumed top line removed,
and this mutation also happens on the calls that raise
`ExomolLineCommentError` or `ExomolLineValueError` on a popped line: the
offending line (head of the list after dropping blanks) is gone and is not
restored. -/
theorem c10_mutation_persists (lines : List String) (nOrig : ℕ)
    (fname : Option String) (vt : Option ValType) :
    (parse_exomol_line lines nOrig fname vt).2 = (lines.dropWhile isBlank).tail
    ∧ (∀ e, (parse_exomol_line lines nOrig fname vt).1 = .error e →
        lineNumOf e ≠ none →
        lines.dropWhile isBlank ≠ [] ∧
        (parse_exomol_line lines nOrig fname vt).2 =
          (lines.dropWhile isBlank).tail) := by
  have htail : (parse_exomol_line lines nOrig fname vt).2 =
      (lines.dropWhile isBlank).tail := by
    unfold parse_exomol_line
    rcases hd : lines.dropWhile isBlank with _ | ⟨l, rem⟩ <;> rfl
  refine ⟨htail, fun e he hnum => ⟨?_, htail⟩⟩
  intro hnil
  unfold parse_exomol_line at he
  rw [hnil] at he
  simp only [Except.error.injEq] at he
  subst he
  exact hnum rfl

/-- Witness for `c10_mutation_persists`: a call over a blank line followed by a
malformed line raises the comment error yet leaves the list with both the
blank and the malformed line removed. -/
theorem c10_mutation_persists_witness :
    (parse_exomol_line ["", "bad line"] 2 (some "f") none).2 =
      ((["", "bad line"] : List String).dropWhile isBlank).tail
    ∧ (["", "bad line"] : List String).dropWhile isBlank ≠ [] :=
  ⟨(c10_mutation_persists ["", "bad line"] 2 (some "f") none).1,
   ((c10_mutation_persists ["", "bad line"] 2 (some "f") none).2
      (.lineFormat 2 (some "f")) (by rfl) (by decide)).1⟩
